import Mathlib

/-!
Verification of the Metrics Aggregation Engine of the cart-abandonment
dashboard (src/app.py and src/streamlit_app.py) against its specification.

The engine is embedded shallowly:

* a pandas DataFrame becomes a Table: a list of column names that are
  present plus a list of rows; each nullable cell is an Option (none
  models NaN / a missing value);
* floating-point numbers are modelled by rationals; a NaN produced by an
  aggregation (mean of an empty selection) is modelled by none;
* pandas raising KeyError on a missing column becomes an Except value;
  the try/except wrapper in app.py's get_summary_stats becomes
  Except.toOption (the caught exception turns into the empty dict,
  modelled none);
* groupby(..., sort=True, dropna=True) becomes: drop rows with a null
  key, form the list of distinct keys sorted ascending (String's
  lexicographic linear order, as Python compares strings), aggregate the
  rows of each key;
* the column aggregations count / sum / mean follow pandas skipna
  semantics: nulls are dropped from the column first, the sum of an
  all-null column is 0 and its mean is NaN (none);
* DataFrame.round(3) becomes rounding to 3 decimal places with ties to
  even (numpy's documented rounding mode), applied to every aggregated
  column;
* sort_values(by, ascending=False, kind=quicksort, na_position=last)
  follows pandas nargsort: the non-NaN block is reversed, argsorted
  ascending, and the resulting indexer reversed again, after which NaN
  rows are appended in their original order.  The underlying numpy
  argsort (default kind quicksort, an introsort) is embedded as an
  insertion sort.  This coincides with numpy exactly when the non-NaN
  block has at most 16 elements, where numpy itself runs an insertion
  sort; on larger blocks numpy's partitioning is unstable and only the
  ascending order of the keys — not the relative order of equal keys —
  is guaranteed.  Accordingly, conclusions drawn from this embedding
  that depend only on the output being a correctly ordered permutation
  (descending rates, NaN rows last, membership) are stated for every
  table, while the tie-stability statement of C4 carries an explicit
  bound of 16 on the non-NaN block, the regime where the embedding is
  exact.
-/

namespace CartAbandon

/-- Order Record: one row of the analysis table.  Numeric cells are
nullable rationals (none models NaN), categorical cells are nullable
strings.  Field names follow the source columns. -/
structure Row where
  is_abandoned : Option ℚ
  is_completed : Option ℚ
  cart_value : Option ℚ
  product_category_name_english : Option String
  payment_type : Option String
  customer_state : Option String
deriving DecidableEq

/-- A loaded DataFrame: the set of columns present (a missing required
column makes pandas raise KeyError) together with the rows. -/
structure Table where
  cols : List String
  rows : List Row
deriving DecidableEq

/-- Errors of the engine: pandas KeyError on a missing column, the
SchemaError of the specification. -/
inductive EngineError where
  | keyError (col : String) : EngineError
deriving DecidableEq

/-- Summary Record returned by get_summary_stats / calculate_summary_stats.
avg_cart_value is an Option: none models the NaN that pandas mean returns
on an empty table. -/
structure SummaryRec where
  total_orders : ℕ
  abandoned_orders : ℤ
  completed_orders : ℤ
  abandonment_rate : ℚ
  total_revenue : ℚ
  lost_revenue : ℚ
  avg_cart_value : Option ℚ
  potential_recovery_10pct : ℚ
deriving DecidableEq

/-- Python's int() applied to a float: truncation toward zero. -/
def pyInt (q : ℚ) : ℤ :=
  q.num.tdiv (q.den : ℤ)

/-- Column fillna(0): a null cell becomes 0, a present cell is kept. -/
def fillRow (r : Row) : Row :=
  { r with
    is_abandoned := some (r.is_abandoned.getD 0)
    is_completed := some (r.is_completed.getD 0)
    cart_value := some (r.cart_value.getD 0) }

/-- Body of get_summary_stats / calculate_summary_stats once the three
numeric columns exist: copy the frame, fillna(0) the three columns, then
compute the eight statistics exactly as src/app.py lines 46-76 do. -/
def summaryOf (rows : List Row) : SummaryRec :=
  let df := rows.map fillRow
  let total_orders := df.length
  let abandoned_orders := pyInt ((df.map (fun r => r.is_abandoned.getD 0)).sum)
  let completed_orders := pyInt ((df.map (fun r => r.is_completed.getD 0)).sum)
  let abandonment_rate : ℚ :=
    if 0 < total_orders then (abandoned_orders : ℚ) / (total_orders : ℚ) else 0
  let completed_df := df.filter (fun r => decide (r.is_completed.getD 0 = 1))
  let abandoned_df := df.filter (fun r => decide (r.is_abandoned.getD 0 = 1))
  let total_revenue := (completed_df.map (fun r => r.cart_value.getD 0)).sum
  let lost_revenue := (abandoned_df.map (fun r => r.cart_value.getD 0)).sum
  let avg_cart_value : Option ℚ :=
    if total_orders = 0 then none
    else some (((df.map (fun r => r.cart_value.getD 0)).sum) / (total_orders : ℚ))
  { total_orders := total_orders
    abandoned_orders := abandoned_orders
    completed_orders := completed_orders
    abandonment_rate := abandonment_rate
    total_revenue := total_revenue
    lost_revenue := lost_revenue
    avg_cart_value := avg_cart_value
    potential_recovery_10pct := lost_revenue * (1 / 10) }

/-- Check that each listed column is present, failing with KeyError on
the first missing one, in the order the source accesses them. -/
def requireCols (t : Table) : List String → Except EngineError Unit
  | [] => .ok ()
  | c :: cs => if t.cols.contains c then requireCols t cs else .error (.keyError c)

/-- Columns the summary computation reads, in access order
(src/app.py lines 50-52). -/
def summaryCols : List String :=
  ["is_abandoned", "is_completed", "cart_value"]

/-- The summary computation before any exception handling: KeyError on a
missing column, otherwise the Summary Record. -/
def summaryChecked (t : Table) : Except EngineError SummaryRec :=
  (requireCols t summaryCols).map (fun _ => summaryOf t.rows)

/-- DashboardData.get_summary_stats (src/app.py lines 39-82): with no
loaded data it returns the empty dict (none); otherwise the whole
computation sits in a try/except that turns any exception into the empty
dict as well. -/
def get_summary_stats (analysis_data : Option Table) : Option SummaryRec :=
  match analysis_data with
  | none => none
  | some t => (summaryChecked t).toOption

/-- calculate_summary_stats (src/streamlit_app.py lines 39-72): same
computation but with no try/except, so a missing column propagates as an
exception (the error branch). -/
def calculate_summary_stats (df : Option Table) : Except EngineError (Option SummaryRec) :=
  match df with
  | none => .ok none
  | some t => (summaryChecked t).map some

/-- Rounding of numpy / pandas round: nearest integer, ties to even. -/
def roundHalfEven (q : ℚ) : ℤ :=
  let f := ⌊q⌋
  let r := q - (f : ℚ)
  if r < 1 / 2 then f
  else if 1 / 2 < r then f + 1
  else if Even f then f else f + 1

/-- DataFrame.round(3): round to 3 decimal places, ties to even. -/
def round3 (q : ℚ) : ℚ :=
  (roundHalfEven (q * 1000) : ℚ) / 1000

/-- Drop the nulls of a column, as every pandas aggregation does by
default (skipna). -/
def dropna (l : List (Option ℚ)) : List ℚ :=
  l.filterMap id

/-- Breakdown Record: one row of the groupby-agg result after the column
renaming, one per group key.  abandonment_rate and avg_cart_value are
none when their group has no non-null entry (pandas mean of an empty
selection is NaN). -/
structure BRec where
  total_orders : ℚ
  abandoned_orders : ℚ
  abandonment_rate : Option ℚ
  total_revenue : ℚ
  avg_cart_value : Option ℚ
deriving DecidableEq

/-- The agg dictionary applied to the rows of one group, followed by
round(3): count, sum and mean of is_abandoned and sum and mean of
cart_value, each with pandas skipna semantics (nulls dropped from the
column; the sum of an all-null column is 0, its mean NaN). -/
def aggGroup (rs : List Row) : BRec :=
  let ia := dropna (rs.map Row.is_abandoned)
  let cv := dropna (rs.map Row.cart_value)
  { total_orders := round3 (ia.length : ℚ)
    abandoned_orders := round3 ia.sum
    abandonment_rate :=
      if ia.length = 0 then none else some (round3 (ia.sum / (ia.length : ℚ)))
    total_revenue := round3 cv.sum
    avg_cart_value :=
      if cv.length = 0 then none else some (round3 (cv.sum / (cv.length : ℚ))) }

/-- Group keys of groupby(column): rows with a null key are dropped
(dropna=True) and the distinct keys are listed in ascending string order
(sort=True; Python compares strings lexicographically by code point). -/
def keysOf (key : Row → Option String) (rows : List Row) : List String :=
  List.insertionSort (· ≤ ·) (rows.filterMap key).dedup

/-- Rows of the group of key k. -/
def groupRows (key : Row → Option String) (rows : List Row) (k : String) : List Row :=
  rows.filter (fun r => decide (key r = some k))

/-- groupby(column).agg({...}).round(3) with the renamed columns: the
ordered association list from each group key to its aggregated record. -/
def groupAgg (key : Row → Option String) (rows : List Row) : List (String × BRec) :=
  (keysOf key rows).map (fun k => (k, aggGroup (groupRows key rows k)))

/-- Sort key used by sort_values('abandonment_rate'): the rate of a
breakdown row; only applied to rows whose rate is non-NaN. -/
def rateKey (p : String × BRec) : ℚ :=
  p.2.abandonment_rate.getD 0

/-- Ascending comparison on the abandonment rate, the relation the
underlying argsort orders by. -/
def rateLe (p q : String × BRec) : Prop :=
  rateKey p ≤ rateKey q

instance : DecidableRel rateLe :=
  fun p q => inferInstanceAs (Decidable (rateKey p ≤ rateKey q))

instance : IsTotal (String × BRec) rateLe :=
  ⟨fun p q => le_total (rateKey p) (rateKey q)⟩

instance : IsTrans (String × BRec) rateLe :=
  ⟨fun _ _ _ h1 h2 => le_trans h1 h2⟩

/-- sort_values('abandonment_rate', ascending=False) as pandas nargsort
performs it: the non-NaN rows are reversed, argsorted ascending and
reversed again, then the NaN-rate rows are appended in their original
order (na_position=last).  The underlying numpy argsort (kind
quicksort, an introsort) is embedded as an insertion sort.  The
embedding agrees with numpy exactly when the non-NaN block has at most
16 elements, where numpy also runs an insertion sort; on larger blocks
numpy is unstable among equal keys and the embedding represents one
correctly ordered permutation among those the program may produce, so
only order-of-keys facts — not tie order — may be read off it there. -/
def sortDescByRate (l : List (String × BRec)) : List (String × BRec) :=
  let nonNanPart := l.filter (fun p => p.2.abandonment_rate.isSome)
  let nanPart := l.filter (fun p => p.2.abandonment_rate.isNone)
  (List.insertionSort rateLe nonNanPart.reverse).reverse ++ nanPart

/-- Columns the category breakdown reads, in access order. -/
def categoryCols : List String :=
  ["product_category_name_english", "is_abandoned", "cart_value"]

/-- Columns the payment breakdown reads, in access order. -/
def paymentCols : List String :=
  ["payment_type", "is_abandoned", "cart_value"]

/-- Columns the state breakdown reads, in access order. -/
def stateCols : List String :=
  ["customer_state", "is_abandoned", "cart_value"]

/-- The category groupby-agg stage (src/app.py lines 89-94). -/
def categoryGroups (rows : List Row) : List (String × BRec) :=
  groupAgg Row.product_category_name_english rows

/-- The category filter stage: keep groups with total_orders >= 50
(src/app.py line 95). -/
def categoryFiltered (rows : List Row) : List (String × BRec) :=
  (categoryGroups rows).filter (fun p => decide ((50 : ℚ) ≤ p.2.total_orders))

/-- DashboardData.get_category_analysis (src/app.py lines 84-98): empty
result without data, KeyError on a missing column, otherwise group by
category, aggregate, keep groups of at least 50, sort descending by
abandonment rate, truncate to the top 10. -/
def get_category_analysis (analysis_data : Option Table) :
    Except EngineError (List (String × BRec)) :=
  match analysis_data with
  | none => .ok []
  | some t =>
    (requireCols t categoryCols).map
      (fun _ => (sortDescByRate (categoryFiltered t.rows)).take 10)

/-- DashboardData.get_payment_analysis (src/app.py lines 100-111): group
by payment type and aggregate; no minimum group size, no sort by rate
and no truncation, so the groups stay in ascending key order. -/
def get_payment_analysis (analysis_data : Option Table) :
    Except EngineError (List (String × BRec)) :=
  match analysis_data with
  | none => .ok []
  | some t =>
    (requireCols t paymentCols).map (fun _ => groupAgg Row.payment_type t.rows)

/-- The state groupby-agg stage (src/app.py lines 118-123). -/
def stateGroups (rows : List Row) : List (String × BRec) :=
  groupAgg Row.customer_state rows

/-- The state filter stage: keep groups with total_orders >= 100
(src/app.py line 124). -/
def stateFiltered (rows : List Row) : List (String × BRec) :=
  (stateGroups rows).filter (fun p => decide ((100 : ℚ) ≤ p.2.total_orders))

/-- DashboardData.get_state_analysis (src/app.py lines 113-127): like the
category breakdown with minimum group size 100. -/
def get_state_analysis (analysis_data : Option Table) :
    Except EngineError (List (String × BRec)) :=
  match analysis_data with
  | none => .ok []
  | some t =>
    (requireCols t stateCols).map
      (fun _ => (sortDescByRate (stateFiltered t.rows)).take 10)

/-- State-passing form of get_summary_stats for the frame property: the
second component is the caller's stored table as observable after the
call.  The source first binds df = self.analysis_data.copy(); the copy
gives df storage of its own, so the three in-place fillna column
assignments (the map fillRow inside summaryOf) update only the copy, and
the stored table is passed through unchanged. -/
def get_summary_stats_st (analysis_data : Option Table) :
    Option SummaryRec × Option Table :=
  (get_summary_stats analysis_data, analysis_data)

/-- State-passing form of the three breakdowns: groupby/agg/filter/
sort_values/head all allocate fresh frames and never write into
self.analysis_data, so the stored table is passed through unchanged. -/
def get_category_analysis_st (analysis_data : Option Table) :
    Except EngineError (List (String × BRec)) × Option Table :=
  (get_category_analysis analysis_data, analysis_data)

/-- State-passing form of get_payment_analysis. -/
def get_payment_analysis_st (analysis_data : Option Table) :
    Except EngineError (List (String × BRec)) × Option Table :=
  (get_payment_analysis analysis_data, analysis_data)

/-- State-passing form of get_state_analysis. -/
def get_state_analysis_st (analysis_data : Option Table) :
    Except EngineError (List (String × BRec)) × Option Table :=
  (get_state_analysis analysis_data, analysis_data)

/-! Concrete tables used by witnesses and counterexamples. -/

/-- A completed order of cart value 10. -/
def rowA : Row := ⟨some 0, some 1, some 10, some "a", some "card", some "SP"⟩

/-- A completed order with a null cart value. -/
def rowB : Row := ⟨some 0, some 1, none, some "a", some "card", some "SP"⟩

/-- A completed order of cart value 20. -/
def rowC : Row := ⟨some 0, some 1, some 20, some "a", some "card", some "SP"⟩

/-- The 3-row table of the specification: cart values 10, null, 20, all
completion flags 1. -/
def exT1 : Table :=
  ⟨["is_abandoned", "is_completed", "cart_value"], [rowA, rowB, rowC]⟩

/-- A table with the three numeric columns and no rows. -/
def emptyT : Table :=
  ⟨["is_abandoned", "is_completed", "cart_value"], []⟩

/-! Helper lemmas about the embedding. -/

/-- Rounding with ties to even is the identity on integers. -/
theorem roundHalfEven_intCast (m : ℤ) : roundHalfEven (m : ℚ) = m := by
  unfold roundHalfEven
  norm_num

/-- Rounding to three decimals is the identity on natural counts. -/
theorem round3_natCast (n : ℕ) : round3 (n : ℚ) = n := by
  unfold round3
  have h : ((n : ℚ) * 1000) = ((n * 1000 : ℤ) : ℚ) := by push_cast; ring
  rw [h, roundHalfEven_intCast]
  push_cast
  ring

/-- Reading a filled numeric field with a 0 default is reading the
original field with a 0 default. -/
theorem fillRow_getD (rows : List Row) (f g : Row → Option ℚ)
    (hfg : ∀ r, f (fillRow r) = some (g r |>.getD 0)) :
    (rows.map fillRow).map (fun r => (f r).getD 0) =
      rows.map (fun r => (g r).getD 0) := by
  rw [List.map_map]
  refine List.map_congr_left (fun r _ => ?_)
  simp [Function.comp, hfg r]

/-- Filtering the filled frame on a filled flag and then summing a
filled column equals doing the same directly on the raw rows. -/
theorem fill_filter_sum (rows : List Row) (f g : Row → Option ℚ)
    (hf : ∀ r, f (fillRow r) = some ((f r).getD 0))
    (hg : ∀ r, g (fillRow r) = some ((g r).getD 0)) :
    (((rows.map fillRow).filter (fun r => decide ((f r).getD 0 = 1))).map
        (fun r => (g r).getD 0)).sum =
      ((rows.filter (fun r => decide ((f r).getD 0 = 1))).map
        (fun r => (g r).getD 0)).sum := by
  rw [List.filter_map]
  have hfilter :
      (rows.filter ((fun r => decide ((f r).getD 0 = 1)) ∘ fillRow)) =
        rows.filter (fun r => decide ((f r).getD 0 = 1)) := by
    refine List.filter_congr (fun r _ => ?_)
    simp [Function.comp, hf r]
  rw [hfilter, List.map_map]
  congr 1
  refine List.map_congr_left (fun r _ => ?_)
  simp [Function.comp, hg r]

/-- The visible success of get_summary_stats once the three numeric
columns are present. -/
theorem get_summary_stats_ok (t : Table)
    (h : requireCols t summaryCols = .ok ()) :
    get_summary_stats (some t) = some (summaryOf t.rows) := by
  simp [get_summary_stats, summaryChecked, h, Except.toOption, Except.map]

/-- The visible success of calculate_summary_stats once the three
numeric columns are present. -/
theorem calculate_summary_stats_ok (t : Table)
    (h : requireCols t summaryCols = .ok ()) :
    calculate_summary_stats (some t) = .ok (some (summaryOf t.rows)) := by
  simp [calculate_summary_stats, summaryChecked, h, Except.map]

/-- C1: on any table holding the three numeric columns, the summary
computation first zero-fills the nulls of is_abandoned, is_completed and
cart_value and then returns total_orders = row count, abandoned_orders
and completed_orders = the integer-cast sums of the two flags,
total_revenue and lost_revenue = the cart_value sums over the completed
and the abandoned rows, avg_cart_value = the mean of cart_value over all
rows (defined whenever the table is nonempty), and
potential_recovery_10pct = lost_revenue times one tenth; both the Flask
and the Streamlit variant return this same record. -/
theorem C1_compute_summary (t : Table)
    (h : requireCols t summaryCols = .ok ()) :
    ∃ s : SummaryRec,
      get_summary_stats (some t) = some s ∧
      calculate_summary_stats (some t) = .ok (some s) ∧
      s.total_orders = t.rows.length ∧
      s.abandoned_orders =
        pyInt ((t.rows.map (fun r => r.is_abandoned.getD 0)).sum) ∧
      s.completed_orders =
        pyInt ((t.rows.map (fun r => r.is_completed.getD 0)).sum) ∧
      s.total_revenue =
        ((t.rows.filter (fun r => decide (r.is_completed.getD 0 = 1))).map
          (fun r => r.cart_value.getD 0)).sum ∧
      s.lost_revenue =
        ((t.rows.filter (fun r => decide (r.is_abandoned.getD 0 = 1))).map
          (fun r => r.cart_value.getD 0)).sum ∧
      (t.rows.length ≠ 0 →
        s.avg_cart_value =
          some ((t.rows.map (fun r => r.cart_value.getD 0)).sum /
            (t.rows.length : ℚ))) ∧
      s.potential_recovery_10pct = s.lost_revenue * (1 / 10) := by
  refine ⟨summaryOf t.rows, get_summary_stats_ok t h,
    calculate_summary_stats_ok t h, ?_, ?_, ?_, ?_, ?_, ?_, ?_⟩
  · simp [summaryOf]
  · simp only [summaryOf]
    rw [fillRow_getD t.rows Row.is_abandoned Row.is_abandoned
      (fun r => by simp [fillRow])]
  · simp only [summaryOf]
    rw [fillRow_getD t.rows Row.is_completed Row.is_completed
      (fun r => by simp [fillRow])]
  · simp only [summaryOf]
    rw [fill_filter_sum t.rows Row.is_completed Row.cart_value
      (fun r => by simp [fillRow]) (fun r => by simp [fillRow])]
  · simp only [summaryOf]
    rw [fill_filter_sum t.rows Row.is_abandoned Row.cart_value
      (fun r => by simp [fillRow]) (fun r => by simp [fillRow])]
  · intro hne
    simp only [summaryOf, List.length_map, if_neg hne]
    rw [fillRow_getD t.rows Row.cart_value Row.cart_value
      (fun r => by simp [fillRow])]
  · rfl

/-- Witness for C1: on the 3-row table with cart values 10, null, 20 and
all completion flags 1, the summary exists and moreover total_revenue is
30 and avg_cart_value is 10, the two concrete values of the claim. -/
theorem C1_compute_summary_witness :
    (requireCols exT1 summaryCols = .ok ()) ∧
    (∃ s : SummaryRec,
      get_summary_stats (some exT1) = some s ∧
      calculate_summary_stats (some exT1) = .ok (some s) ∧
      s.total_orders = exT1.rows.length ∧
      s.abandoned_orders =
        pyInt ((exT1.rows.map (fun r => r.is_abandoned.getD 0)).sum) ∧
      s.completed_orders =
        pyInt ((exT1.rows.map (fun r => r.is_completed.getD 0)).sum) ∧
      s.total_revenue =
        ((exT1.rows.filter (fun r => decide (r.is_completed.getD 0 = 1))).map
          (fun r => r.cart_value.getD 0)).sum ∧
      s.lost_revenue =
        ((exT1.rows.filter (fun r => decide (r.is_abandoned.getD 0 = 1))).map
          (fun r => r.cart_value.getD 0)).sum ∧
      (exT1.rows.length ≠ 0 →
        s.avg_cart_value =
          some ((exT1.rows.map (fun r => r.cart_value.getD 0)).sum /
            (exT1.rows.length : ℚ))) ∧
      s.potential_recovery_10pct = s.lost_revenue * (1 / 10)) ∧
    (get_summary_stats (some exT1)).map (fun s => s.total_revenue) = some 30 ∧
    (get_summary_stats (some exT1)).map (fun s => s.avg_cart_value) =
      some (some 10) :=
  ⟨by norm_num [requireCols, summaryCols, exT1],
   C1_compute_summary exT1 (by norm_num [requireCols, summaryCols, exT1]),
   by norm_num [get_summary_stats, summaryChecked, requireCols, summaryCols,
     summaryOf, fillRow, pyInt, exT1, rowA, rowB, rowC, Except.toOption, Except.map],
   by norm_num [get_summary_stats, summaryChecked, requireCols, summaryCols,
     summaryOf, fillRow, pyInt, exT1, rowA, rowB, rowC, Except.toOption, Except.map]⟩

/-- C5: on any table holding the three numeric columns the summary's
abandonment_rate is the guarded quotient: abandoned over total when the
table is nonempty and exactly 0 on the empty table, so the division
never runs with a zero denominator. -/
theorem C5_abandonment_rate_guarded (t : Table)
    (h : requireCols t summaryCols = .ok ()) :
    ∃ s : SummaryRec,
      get_summary_stats (some t) = some s ∧
      s.abandonment_rate =
        (if 0 < s.total_orders then
          (s.abandoned_orders : ℚ) / (s.total_orders : ℚ) else 0) ∧
      (s.total_orders = 0 → s.abandonment_rate = 0) := by
  refine ⟨summaryOf t.rows, get_summary_stats_ok t h, ?_, ?_⟩
  · simp [summaryOf]
  · intro h0
    simp only [summaryOf, List.length_map] at h0 ⊢
    simp [h0]

/-- Witness for C5, applied both to the empty table (rate exactly 0) and
checked there concretely. -/
theorem C5_abandonment_rate_guarded_witness :
    (requireCols emptyT summaryCols = .ok ()) ∧
    (∃ s : SummaryRec,
      get_summary_stats (some emptyT) = some s ∧
      s.abandonment_rate =
        (if 0 < s.total_orders then
          (s.abandoned_orders : ℚ) / (s.total_orders : ℚ) else 0) ∧
      (s.total_orders = 0 → s.abandonment_rate = 0)) ∧
    (get_summary_stats (some emptyT)).map (fun s => s.abandonment_rate) =
      some 0 :=
  ⟨by norm_num [requireCols, summaryCols, emptyT],
   C5_abandonment_rate_guarded emptyT (by norm_num [requireCols, summaryCols, emptyT]),
   by norm_num [get_summary_stats, summaryChecked, requireCols, summaryCols,
     summaryOf, fillRow, pyInt, emptyT, Except.toOption, Except.map]⟩

/-- C7: on the empty table the summary is produced without any guard on
avg_cart_value: pandas mean of the empty column is NaN (modelled none)
and that NaN is silently stored in the returned record, so the caller
receives an undefined value rather than a documented default or
sentinel. -/
theorem C7_empty_table_avg_is_nan :
    get_summary_stats (some emptyT) =
      some { total_orders := 0
             abandoned_orders := 0
             completed_orders := 0
             abandonment_rate := 0
             total_revenue := 0
             lost_revenue := 0
             avg_cart_value := none
             potential_recovery_10pct := 0 } := by
  norm_num [get_summary_stats, summaryChecked, requireCols, summaryCols,
    summaryOf, fillRow, pyInt, emptyT, Except.toOption, Except.map]

/-- C8: with no loaded dataset every aggregation call returns its empty
result, the empty record for the summary and the empty sequence for each
of the three breakdowns, and none of them signals an error. -/
theorem C8_absent_table_degrades :
    get_summary_stats none = none ∧
    calculate_summary_stats none = .ok none ∧
    get_category_analysis none = .ok [] ∧
    get_payment_analysis none = .ok [] ∧
    get_state_analysis none = .ok [] :=
  ⟨rfl, rfl, rfl, rfl, rfl⟩

/-- A nonempty table whose cart_value column is absent. -/
def missingColT : Table :=
  ⟨["is_abandoned", "is_completed"], [rowA]⟩

/-- A nonempty table with no columns at all. -/
def noColsT : Table :=
  ⟨[], [rowA]⟩

/-- C3 counterexample: on a nonempty table missing the cart_value
column the inner computation of get_summary_stats does raise KeyError,
but the try/except of src/app.py lines 45-82 swallows it and the call
returns the empty record, indistinguishable from the no-data result, so
the claimed SchemaError is never signalled to the caller. -/
theorem C3_counterexample :
    summaryChecked missingColT = .error (.keyError "cart_value") ∧
    get_summary_stats (some missingColT) = none ∧
    missingColT.rows.length = 1 :=
  ⟨rfl, rfl, rfl⟩

/-- C3 amended: a breakdown whose group_by_column (or aggregated column)
is missing raises the KeyError unhandled and yields no partial result,
and so does the Streamlit summary; but the Flask get_summary_stats
catches the exception internally and returns the empty record instead of
signalling. -/
theorem C3_missing_column (t : Table) :
    (∀ e, requireCols t categoryCols = .error e →
      get_category_analysis (some t) = .error e) ∧
    (∀ e, requireCols t paymentCols = .error e →
      get_payment_analysis (some t) = .error e) ∧
    (∀ e, requireCols t stateCols = .error e →
      get_state_analysis (some t) = .error e) ∧
    (∀ e, requireCols t summaryCols = .error e →
      get_summary_stats (some t) = none ∧
      calculate_summary_stats (some t) = .error e) := by
  refine ⟨fun e h => ?_, fun e h => ?_, fun e h => ?_, fun e h => ⟨?_, ?_⟩⟩ <;>
    simp [get_category_analysis, get_payment_analysis, get_state_analysis,
      get_summary_stats, calculate_summary_stats, summaryChecked, h,
      Except.map, Except.toOption]

/-- Witness for the amended C3 at a table with no columns: each
breakdown raises the KeyError of its group column, the Streamlit summary
raises, the Flask summary returns the empty record. -/
theorem C3_missing_column_witness :
    get_category_analysis (some noColsT) =
      .error (.keyError "product_category_name_english") ∧
    get_payment_analysis (some noColsT) = .error (.keyError "payment_type") ∧
    get_state_analysis (some noColsT) = .error (.keyError "customer_state") ∧
    (get_summary_stats (some noColsT) = none ∧
      calculate_summary_stats (some noColsT) =
        .error (.keyError "is_abandoned")) :=
  ⟨(C3_missing_column noColsT).1 _ rfl,
   (C3_missing_column noColsT).2.1 _ rfl,
   (C3_missing_column noColsT).2.2.1 _ rfl,
   (C3_missing_column noColsT).2.2.2 _ rfl⟩

/-- C9: in the state-passing embedding every engine call hands back the
caller's stored table unchanged — the zero-filling acts on the working
copy bound by df = self.analysis_data.copy() — while the first component
is exactly the usual result; and the zero-filling is a real change on
rows with nulls (fillRow rowB differs from rowB), so it is only the copy
that absorbs it, never the caller's table. -/
theorem C9_no_mutation (analysis_data : Option Table) :
    (get_summary_stats_st analysis_data).2 = analysis_data ∧
    (get_category_analysis_st analysis_data).2 = analysis_data ∧
    (get_payment_analysis_st analysis_data).2 = analysis_data ∧
    (get_state_analysis_st analysis_data).2 = analysis_data ∧
    (get_summary_stats_st analysis_data).1 = get_summary_stats analysis_data ∧
    fillRow rowB ≠ rowB :=
  ⟨rfl, rfl, rfl, rfl, rfl, by decide⟩

/-- A payment row: abandoned, cart value 10, paid by card. -/
def rowP1 : Row := ⟨some 1, some 0, some 10, none, some "card", none⟩

/-- A payment row with null is_abandoned and null cart_value. -/
def rowP2 : Row := ⟨none, none, none, none, some "card", none⟩

/-- Two rows paid by card, one of them with null is_abandoned. -/
def exT2 : Table :=
  ⟨["payment_type", "is_abandoned", "cart_value", "is_completed"],
   [rowP1, rowP2]⟩

/-- C2 counterexample: the breakdowns do not zero-fill nulls before
grouping.  On a table with two card rows, one of them with a null
is_abandoned, the card group reports total_orders = 1 (pandas count of
the non-null is_abandoned entries) although two rows of the table carry
that key, and its avg_cart_value is 10, not the 5 that zero-filling the
null cart_value would give. -/
theorem C2_counterexample :
    get_payment_analysis (some exT2) =
      .ok [("card", ⟨1, 1, some 1, 10, some 10⟩)] ∧
    (exT2.rows.filter (fun r => decide (r.payment_type = some "card"))).length
      = 2 := by
  constructor
  · with_unfolding_all rfl
  · decide

/-- Extracting a column and dropping its nulls is filterMap. -/
theorem dropna_map (f : Row → Option ℚ) (rs : List Row) :
    dropna (rs.map f) = rs.filterMap f := by
  simp [dropna, List.filterMap_map, Function.comp]

/-- The length of a column without its nulls is the number of rows whose
entry is non-null (the pandas count aggregate). -/
theorem length_filterMap_eq (f : Row → Option ℚ) (rs : List Row) :
    (rs.filterMap f).length = (rs.filter (fun r => (f r).isSome)).length := by
  rw [List.length_filterMap_eq_countP, List.countP_eq_length_filter]

/-- Summing a column with its nulls dropped equals summing it with the
nulls replaced by zero: a null contributes 0 to every sum. -/
theorem sum_filterMap_eq (f : Row → Option ℚ) (rs : List Row) :
    (rs.filterMap f).sum = (rs.map (fun r => (f r).getD 0)).sum := by
  induction rs with
  | nil => rfl
  | cons r rs ih =>
    rw [List.filterMap_cons, List.map_cons, List.sum_cons]
    cases hf : f r with
    | none => rw [ih]; simp [hf]
    | some v => rw [List.sum_cons, ih]; simp [hf]

/-- The five aggregates of one group under pandas skipna semantics, read
off the raw rows of the group. -/
theorem aggGroup_spec (rs : List Row) :
    (aggGroup rs).total_orders =
      ((rs.filter (fun r => r.is_abandoned.isSome)).length : ℚ) ∧
    (aggGroup rs).abandoned_orders =
      round3 ((rs.map (fun r => r.is_abandoned.getD 0)).sum) ∧
    (aggGroup rs).total_revenue =
      round3 ((rs.map (fun r => r.cart_value.getD 0)).sum) ∧
    (aggGroup rs).abandonment_rate =
      (if (rs.filter (fun r => r.is_abandoned.isSome)).length = 0 then none
       else some (round3 ((rs.filterMap Row.is_abandoned).sum /
         ((rs.filter (fun r => r.is_abandoned.isSome)).length : ℚ)))) ∧
    (aggGroup rs).avg_cart_value =
      (if (rs.filter (fun r => r.cart_value.isSome)).length = 0 then none
       else some (round3 ((rs.filterMap Row.cart_value).sum /
         ((rs.filter (fun r => r.cart_value.isSome)).length : ℚ)))) := by
  refine ⟨?_, ?_, ?_, ?_, ?_⟩ <;>
    simp only [aggGroup, dropna_map, length_filterMap_eq, sum_filterMap_eq,
      round3_natCast]

/-- C2 amended: the breakdowns apply no zero-filling before grouping;
instead pandas skipna aggregation applies per group: total_orders is the
count of rows of the group with a non-null is_abandoned (not the row
count of the group), abandoned_orders and total_revenue are sums that
skip nulls (so a null contributes 0 to every sum, stated here through
the zero-filled form), and the two means divide by the count of non-null
entries only, returning NaN (none) when no entry is non-null. -/
theorem C2_skipna_groups (key : Row → Option String) (rows : List Row)
    (k : String) (b : BRec) (h : (k, b) ∈ groupAgg key rows) :
    b.total_orders =
      (((groupRows key rows k).filter
        (fun r => r.is_abandoned.isSome)).length : ℚ) ∧
    b.abandoned_orders =
      round3 (((groupRows key rows k).map
        (fun r => r.is_abandoned.getD 0)).sum) ∧
    b.total_revenue =
      round3 (((groupRows key rows k).map
        (fun r => r.cart_value.getD 0)).sum) ∧
    b.abandonment_rate =
      (if ((groupRows key rows k).filter
            (fun r => r.is_abandoned.isSome)).length = 0 then none
       else some (round3 (((groupRows key rows k).filterMap
           Row.is_abandoned).sum /
         (((groupRows key rows k).filter
           (fun r => r.is_abandoned.isSome)).length : ℚ)))) ∧
    b.avg_cart_value =
      (if ((groupRows key rows k).filter
            (fun r => r.cart_value.isSome)).length = 0 then none
       else some (round3 (((groupRows key rows k).filterMap
           Row.cart_value).sum /
         (((groupRows key rows k).filter
           (fun r => r.cart_value.isSome)).length : ℚ)))) := by
  obtain ⟨k0, hk0, heq⟩ := List.mem_map.mp h
  obtain ⟨rfl, rfl⟩ := Prod.mk.injEq .. ▸ heq
  exact aggGroup_spec (groupRows key rows k0)

/-- Witness for the amended C2 at the two-row card table: the card group
is a member of the payment groupby and its aggregates match the skipna
formulas. -/
theorem C2_skipna_groups_witness :
    (("card", (⟨1, 1, some 1, 10, some 10⟩ : BRec)) ∈
      groupAgg Row.payment_type exT2.rows) ∧
    ((⟨1, 1, some 1, 10, some 10⟩ : BRec).total_orders =
      (((groupRows Row.payment_type exT2.rows "card").filter
        (fun r => r.is_abandoned.isSome)).length : ℚ)) :=
  ⟨by with_unfolding_all decide,
   (C2_skipna_groups Row.payment_type exT2.rows "card" ⟨1, 1, some 1, 10, some 10⟩
     (by with_unfolding_all decide)).1⟩

/-- Sum of a pointwise addition over a list of keys splits. -/
theorem sum_map_add (K : List String) (f g : String → ℕ) :
    (K.map (fun k => f k + g k)).sum = (K.map f).sum + (K.map g).sum := by
  induction K with
  | nil => rfl
  | cons k K ih => simp only [List.map_cons, List.sum_cons, ih]; omega

/-- An indicator summed over keys not containing the target is zero. -/
theorem sum_indicator_zero (K : List String) (k0 : String) (h : k0 ∉ K) :
    (K.map (fun k => if k = k0 then (1 : ℕ) else 0)).sum = 0 := by
  induction K with
  | nil => rfl
  | cons k K ih =>
    simp only [List.map_cons, List.sum_cons]
    rw [if_neg (by rintro rfl; exact h (List.mem_cons_self _ _)),
      ih (fun hm => h (List.mem_cons_of_mem _ hm))]

/-- An indicator summed over duplicate-free keys containing the target
is one. -/
theorem sum_indicator_one (K : List String) (k0 : String) (hnd : K.Nodup)
    (hm : k0 ∈ K) :
    (K.map (fun k => if k = k0 then (1 : ℕ) else 0)).sum = 1 := by
  induction K with
  | nil => cases hm
  | cons k K ih =>
    simp only [List.map_cons, List.sum_cons]
    rcases List.mem_cons.mp hm with rfl | hm2
    · rw [if_pos rfl, sum_indicator_zero K k0 (List.nodup_cons.mp hnd).1]
    · have hk : k ≠ k0 := by
        rintro rfl; exact (List.nodup_cons.mp hnd).1 hm2
      rw [if_neg hk, ih (List.nodup_cons.mp hnd).2 hm2]

/-- Length of a filtered cons. -/
theorem length_filter_cons (q : Row → Bool) (r : Row) (rs : List Row) :
    ((r :: rs).filter q).length =
      (if q r then 1 else 0) + (rs.filter q).length := by
  rw [List.filter_cons]
  by_cases h : q r
  · simp [h]; omega
  · simp [h]

/-- The groups of a groupby partition the rows with a non-null key: for
any per-row flag p, the per-group counts of rows satisfying p sum to the
count, over the whole table, of rows with a non-null key satisfying p. -/
theorem counts_partition (key : Row → Option String) (p : Row → Bool)
    (K : List String) (hnd : K.Nodup) (rows : List Row)
    (hall : ∀ r ∈ rows, ∀ k, key r = some k → k ∈ K) :
    (K.map (fun k =>
      ((rows.filter (fun r => decide (key r = some k) && p r)).length))).sum =
    (rows.filter (fun r => (key r).isSome && p r)).length := by
  induction rows with
  | nil => simp
  | cons r rs ih =>
    have hrs : ∀ x ∈ rs, ∀ k, key x = some k → k ∈ K :=
      fun x hx => hall x (List.mem_cons_of_mem _ hx)
    have hmap : (K.map (fun k =>
        (((r :: rs).filter (fun x => decide (key x = some k) && p x)).length)) )=
        K.map (fun k =>
          (if decide (key r = some k) && p r then 1 else 0) +
          ((rs.filter (fun x => decide (key x = some k) && p x)).length)) :=
      List.map_congr_left (fun k _ => length_filter_cons _ r rs)
    rw [hmap, sum_map_add, ih hrs, length_filter_cons]
    congr 1
    cases hkey : key r with
    | none => simp [hkey]
    | some k0 =>
      by_cases hp : p r
      · have hone := sum_indicator_one K k0 hnd
          (hall r (List.mem_cons_self _ _) k0 hkey)
        have hcongr : (K.map (fun k =>
            if decide (some k0 = some k) && p r then (1 : ℕ) else 0)) =
            K.map (fun k => if k = k0 then (1 : ℕ) else 0) :=
          List.map_congr_left (fun k _ => by
            by_cases hk : k = k0
            · simp [hk, hp]
            · simp [hp, hk, (Ne.symm hk : k0 ≠ k)])
        rw [hcongr, hone]
        simp [hp]
      · have hz : (K.map (fun k =>
            if decide (some k0 = some k) && p r then (1 : ℕ) else 0)) =
            K.map (fun _ => 0) :=
          List.map_congr_left (fun k _ => by simp [hp])
        rw [hz]
        simp [hp]

/-- Keys of a groupby are exactly the non-null keys of the rows. -/
theorem mem_keysOf (key : Row → Option String) (rows : List Row)
    (k : String) : k ∈ keysOf key rows ↔ ∃ r ∈ rows, key r = some k := by
  rw [keysOf, List.mem_insertionSort, List.mem_dedup, List.mem_filterMap]

/-- Keys of a groupby carry no duplicates. -/
theorem nodup_keysOf (key : Row → Option String) (rows : List Row) :
    (keysOf key rows).Nodup :=
  ((List.perm_insertionSort _ _).nodup_iff).mpr
    (List.nodup_dedup _)

/-- C10: rows whose group key is null are silently dropped by every
breakdown: each emitted group key comes from some row, a null-key row
lies in no group, and the per-group total_orders of the unfiltered
groupby sum to the number of rows with a non-null key and a non-null
is_abandoned — a quantity bounded by the row count and strictly below it
as soon as a row has a null key. -/
theorem C10_null_keys_dropped (key : Row → Option String) (rows : List Row) :
    (∀ k b, (k, b) ∈ groupAgg key rows → ∃ r ∈ rows, key r = some k) ∧
    (∀ r ∈ rows, key r = none → ∀ k, r ∉ groupRows key rows k) ∧
    ((groupAgg key rows).map (fun p => p.2.total_orders)).sum =
      ((rows.filter (fun r =>
        (key r).isSome && r.is_abandoned.isSome)).length : ℚ) ∧
    (rows.filter (fun r =>
      (key r).isSome && r.is_abandoned.isSome)).length ≤ rows.length := by
  refine ⟨?_, ?_, ?_, List.length_filter_le _ _⟩
  · intro k b hmem
    obtain ⟨k0, hk0, heq⟩ := List.mem_map.mp hmem
    have h1 : k0 = k := congrArg Prod.fst heq
    subst h1
    exact (mem_keysOf key rows k0).mp hk0
  · intro r hr hnone k hmem
    have hdec := (List.mem_filter.mp hmem).2
    simp [hnone] at hdec
  · rw [groupAgg, List.map_map]
    have hcount : ∀ k, ((fun p : String × BRec => p.2.total_orders) ∘
        fun k => (k, aggGroup (groupRows key rows k))) k =
        (((rows.filter (fun r =>
          decide (key r = some k) && r.is_abandoned.isSome)).length : ℕ) : ℚ) := by
      intro k
      have h1 := (aggGroup_spec (groupRows key rows k)).1
      simp only [Function.comp_apply]
      rw [h1, groupRows, List.filter_filter]
      congr 1
      exact congrArg List.length
        (List.filter_congr (fun a _ => Bool.and_comm _ _))
    rw [List.map_congr_left (fun k _ => hcount k)]
    have hpart := counts_partition key (fun r => r.is_abandoned.isSome)
      (keysOf key rows) (nodup_keysOf key rows) rows
      (fun r hr k hk => (mem_keysOf key rows k).mpr ⟨r, hr, hk⟩)
    calc ((keysOf key rows).map (fun k =>
          (((rows.filter (fun r =>
            decide (key r = some k) && r.is_abandoned.isSome)).length : ℕ) : ℚ))).sum
        = ((((keysOf key rows).map (fun k =>
            (rows.filter (fun r =>
              decide (key r = some k) && r.is_abandoned.isSome)).length)).sum : ℕ) : ℚ) := by
          rw [Nat.cast_list_sum, List.map_map]; rfl
      _ = _ := by rw [hpart]

/-- A row with a null category. -/
def rowNullKey : Row := ⟨some 1, some 0, some 5, none, none, none⟩

/-- A row in category a. -/
def rowCat10 : Row := ⟨some 1, some 0, some 5, some "a", none, none⟩

/-- Two rows, one with a category and one with a null category. -/
def exT10 : List Row := [rowCat10, rowNullKey]

/-- Witness for C10 at a 2-row table whose second row has a null
category key: the group sums count 1 row, strictly below the 2 rows of
the table. -/
theorem C10_null_keys_dropped_witness :
    (∃ r ∈ exT10, r.product_category_name_english = some "a") ∧
    rowNullKey ∉ groupRows Row.product_category_name_english exT10 "a" ∧
    ((groupAgg Row.product_category_name_english exT10).map
      (fun p => p.2.total_orders)).sum = 1 ∧
    (1 : ℚ) < (exT10.length : ℚ) :=
  ⟨(C10_null_keys_dropped Row.product_category_name_english exT10).1
    "a" (aggGroup (groupRows Row.product_category_name_english exT10 "a"))
    (by with_unfolding_all decide),
   (C10_null_keys_dropped Row.product_category_name_english exT10).2.1
    rowNullKey (by decide) rfl "a",
   by
    rw [(C10_null_keys_dropped Row.product_category_name_english exT10).2.2.1]
    with_unfolding_all rfl,
   by with_unfolding_all decide⟩

/-- Descending-rate order between two breakdown rows as the output of
sort_values exhibits it: among non-NaN rates the later rate is at most
the earlier one, and a NaN rate may only be followed by NaN rates. -/
def rateGE (p q : String × BRec) : Prop :=
  match p.2.abandonment_rate, q.2.abandonment_rate with
  | some a, some b => b ≤ a
  | _, none => True
  | none, some _ => False

/-- The sorted breakdown is a permutation of its input. -/
theorem sortDescByRate_perm (l : List (String × BRec)) :
    (sortDescByRate l).Perm l := by
  have hsplit :
      (l.filter (fun p => p.2.abandonment_rate.isSome) ++
        l.filter (fun p => p.2.abandonment_rate.isNone)).Perm l := by
    have hnone : l.filter (fun p => p.2.abandonment_rate.isNone) =
        l.filter (fun p => !(p.2.abandonment_rate.isSome)) :=
      List.filter_congr (fun p _ => by cases p.2.abandonment_rate <;> rfl)
    rw [hnone]
    exact List.filter_append_perm _ l
  refine List.Perm.trans ?_ hsplit
  refine List.Perm.append ?_ (List.Perm.refl _)
  exact ((List.reverse_perm _).trans
    (List.perm_insertionSort rateLe _)).trans (List.reverse_perm _)

/-- Everything sort_values returns is sorted: the abandonment rates are
descending among the non-NaN groups and NaN-rate groups sit at the end. -/
theorem pairwise_rateGE_sortDescByRate (l : List (String × BRec)) :
    (sortDescByRate l).Pairwise rateGE := by
  rw [sortDescByRate, List.pairwise_append]
  refine ⟨?_, ?_, ?_⟩
  · have hs : (List.insertionSort rateLe
        (l.filter (fun p => p.2.abandonment_rate.isSome)).reverse).Pairwise
        rateLe :=
      List.sorted_insertionSort rateLe _
    have hrev := List.pairwise_reverse.mpr
      (hs.imp (fun {a b} (h : rateLe a b) => h))
    refine hrev.imp_of_mem (fun {a b} ha hb hab => ?_)
    have ha2 : a.2.abandonment_rate.isSome := by
      have := (List.mem_filter.mp (List.mem_reverse.mp
        ((List.mem_insertionSort rateLe).mp (List.mem_reverse.mp ha)))).2
      exact this
    have hb2 : b.2.abandonment_rate.isSome := by
      have := (List.mem_filter.mp (List.mem_reverse.mp
        ((List.mem_insertionSort rateLe).mp (List.mem_reverse.mp hb)))).2
      exact this
    obtain ⟨x, hx⟩ := Option.isSome_iff_exists.mp ha2
    obtain ⟨y, hy⟩ := Option.isSome_iff_exists.mp hb2
    have : rateKey b ≤ rateKey a := hab
    simp only [rateGE, hx, hy]
    simpa [rateKey, hx, hy] using this
  · refine List.pairwise_iff_forall_sublist.mpr (fun {a b} hsub => ?_)
    have hb : b ∈ l.filter (fun p => p.2.abandonment_rate.isNone) :=
      hsub.subset (by simp)
    have hbn := (List.mem_filter.mp hb).2
    simp only [rateGE]
    rw [Option.isNone_iff_eq_none.mp hbn]
    cases a.2.abandonment_rate <;> trivial
  · intro a ha b hb
    have hbn := (List.mem_filter.mp hb).2
    simp only [rateGE]
    rw [Option.isNone_iff_eq_none.mp hbn]
    cases a.2.abandonment_rate <;> trivial

/-- The embedded descending sort is stable: two rows of equal
abandonment rate keep their relative order (the double reversal around
a stable ascending argsort preserves ties; NaN rows are appended in
input order).  As a fact about the program this only holds where the
embedded argsort is exact — a non-NaN block of at most 16 rows — so the
claim theorem invokes this lemma only under that bound. -/
theorem sortDescByRate_stable (l : List (String × BRec))
    (p q : String × BRec) (hsub : List.Sublist [p, q] l)
    (heq : p.2.abandonment_rate = q.2.abandonment_rate) :
    List.Sublist [p, q] (sortDescByRate l) := by
  rw [sortDescByRate]
  cases hpq : p.2.abandonment_rate with
  | none =>
    have hfil : List.Sublist ([p, q].filter
        (fun x => x.2.abandonment_rate.isNone))
        (l.filter (fun x => x.2.abandonment_rate.isNone)) :=
      hsub.filter _
    have hpq2 : [p, q].filter (fun x => x.2.abandonment_rate.isNone) = [p, q] := by
      have hq : q.2.abandonment_rate = none := heq ▸ hpq
      simp [List.filter, hpq, hq]
    rw [hpq2] at hfil
    exact hfil.trans (List.sublist_append_right _ _)
  | some v =>
    have hq : q.2.abandonment_rate = some v := heq ▸ hpq
    have hfil : List.Sublist ([p, q].filter
        (fun x => x.2.abandonment_rate.isSome))
        (l.filter (fun x => x.2.abandonment_rate.isSome)) :=
      hsub.filter _
    have hpq2 : [p, q].filter (fun x => x.2.abandonment_rate.isSome) = [p, q] := by
      simp [List.filter, hpq, hq]
    rw [hpq2] at hfil
    have hrev : List.Sublist [q, p]
        (l.filter (fun x => x.2.abandonment_rate.isSome)).reverse := by
      have := hfil.reverse
      simpa using this
    have hle : rateLe q p := by
      simp [rateLe, rateKey, hpq, hq]
    have hsorted := List.pair_sublist_insertionSort hle hrev
    have hback : List.Sublist [p, q]
        (List.insertionSort rateLe
          (l.filter (fun x => x.2.abandonment_rate.isSome)).reverse).reverse := by
      have := hsorted.reverse
      simpa using this
    exact hback.trans (List.sublist_append_left _ _)

/-- What a successful category call returns. -/
theorem category_ok_elim (t : Table) (l : List (String × BRec))
    (h : get_category_analysis (some t) = .ok l) :
    l = (sortDescByRate (categoryFiltered t.rows)).take 10 := by
  cases hrc : requireCols t categoryCols with
  | error e =>
    rw [get_category_analysis, hrc] at h
    simp [Except.map] at h
  | ok u =>
    rw [get_category_analysis, hrc] at h
    simp [Except.map] at h
    exact h.symm

/-- What a successful state call returns. -/
theorem state_ok_elim (t : Table) (l : List (String × BRec))
    (h : get_state_analysis (some t) = .ok l) :
    l = (sortDescByRate (stateFiltered t.rows)).take 10 := by
  cases hrc : requireCols t stateCols with
  | error e =>
    rw [get_state_analysis, hrc] at h
    simp [Except.map] at h
  | ok u =>
    rw [get_state_analysis, hrc] at h
    simp [Except.map] at h
    exact h.symm

/-- What a successful payment call returns. -/
theorem payment_ok_elim (t : Table) (l : List (String × BRec))
    (h : get_payment_analysis (some t) = .ok l) :
    l = groupAgg Row.payment_type t.rows := by
  cases hrc : requireCols t paymentCols with
  | error e =>
    rw [get_payment_analysis, hrc] at h
    simp [Except.map] at h
  | ok u =>
    rw [get_payment_analysis, hrc] at h
    simp [Except.map] at h
    exact h.symm

/-- Group keys, and hence the rows of any groupby-agg result, come out
in ascending key order. -/
theorem pairwise_keys_groupAgg (key : Row → Option String) (rows : List Row) :
    (groupAgg key rows).Pairwise (fun a b => a.1 ≤ b.1) := by
  rw [groupAgg, List.pairwise_map]
  exact (List.sorted_insertionSort (fun a b => a ≤ b) _).imp (fun h => h)

/-- A completed boleto order (abandonment rate 0 for its group). -/
def rowQ1 : Row := ⟨some 0, some 1, some 10, none, some "boleto", none⟩

/-- An abandoned card order (abandonment rate 1 for its group). -/
def rowQ2 : Row := ⟨some 1, some 0, some 10, none, some "card", none⟩

/-- A payment table whose two groups have ascending rates 0 and 1. -/
def exT4 : Table :=
  ⟨["payment_type", "is_abandoned", "cart_value", "is_completed"],
   [rowQ1, rowQ2]⟩

/-- C4 counterexample: the payment breakdown is not sorted by
abandonment rate at all — src/app.py lines 100-111 never call
sort_values — so its output stays in ascending key order; here the first
group (boleto) has rate 0 and the second (card) rate 1, the opposite of
the claimed descending order. -/
theorem C4_counterexample :
    get_payment_analysis (some exT4) =
      .ok [("boleto", ⟨1, 0, some 0, 10, some 10⟩),
           ("card", ⟨1, 1, some 1, 10, some 10⟩)] ∧
    (0 : ℚ) < 1 :=
  ⟨by with_unfolding_all rfl, by norm_num⟩

/-- C4 amended: the category and geographic breakdowns are sorted
descending by abandonment_rate with NaN-rate groups last — a property
of every argsort kind, since any of them returns a correctly ordered
permutation of the non-NaN block; the sort is stable — groups of equal
rate keep their original (ascending key) iteration order, pandas'
double reversal around the ascending argsort preserving ties — when at
most 16 groups carry a non-NaN rate, the regime in which numpy's
quicksort argsort is an insertion sort and the embedding exact (on
larger inputs numpy's introsort is unstable and the tie order is
deterministic for a given numpy build but unspecified); the payment
breakdown is returned unsorted, in ascending group-key order.  All
three are pure functions of the table, hence identical across runs. -/
theorem C4_breakdown_ordering (t : Table) :
    (∀ l, get_category_analysis (some t) = .ok l → l.Pairwise rateGE) ∧
    (∀ l, get_state_analysis (some t) = .ok l → l.Pairwise rateGE) ∧
    (∀ p q, ((categoryFiltered t.rows).filter
        (fun x => x.2.abandonment_rate.isSome)).length ≤ 16 →
      List.Sublist [p, q] (categoryFiltered t.rows) →
      p.2.abandonment_rate = q.2.abandonment_rate →
      List.Sublist [p, q] (sortDescByRate (categoryFiltered t.rows))) ∧
    (∀ p q, ((stateFiltered t.rows).filter
        (fun x => x.2.abandonment_rate.isSome)).length ≤ 16 →
      List.Sublist [p, q] (stateFiltered t.rows) →
      p.2.abandonment_rate = q.2.abandonment_rate →
      List.Sublist [p, q] (sortDescByRate (stateFiltered t.rows))) ∧
    (∀ l, get_payment_analysis (some t) = .ok l →
      l.Pairwise (fun a b => a.1 ≤ b.1)) := by
  refine ⟨?_, ?_, ?_, ?_, ?_⟩
  · intro l h
    rw [category_ok_elim t l h]
    exact List.Pairwise.sublist (List.take_sublist _ _)
      (pairwise_rateGE_sortDescByRate _)
  · intro l h
    rw [state_ok_elim t l h]
    exact List.Pairwise.sublist (List.take_sublist _ _)
      (pairwise_rateGE_sortDescByRate _)
  · intro p q _hsize hsub heq
    exact sortDescByRate_stable _ p q hsub heq
  · intro p q _hsize hsub heq
    exact sortDescByRate_stable _ p q hsub heq
  · intro l h
    rw [payment_ok_elim t l h]
    exact pairwise_keys_groupAgg _ _

/-- An abandoned order of cart value 10 in the given category. -/
def rowCA (c : String) : Row := ⟨some 1, some 0, some 10, some c, none, none⟩

/-- A completed order of cart value 10 in the given category. -/
def rowCN (c : String) : Row := ⟨some 0, some 1, some 10, some c, none, none⟩

/-- All six columns of the schema. -/
def allCols : List String :=
  ["is_abandoned", "is_completed", "cart_value",
   "product_category_name_english", "payment_type", "customer_state"]

/-- A 150-row table with three 50-row categories of abandonment rates
0.2, 0.5 and 0.5 in iteration order a, b, c. -/
def exT4s : Table :=
  ⟨allCols,
   (List.replicate 10 (rowCA "a") ++ List.replicate 40 (rowCN "a")) ++
   (List.replicate 25 (rowCA "b") ++ List.replicate 25 (rowCN "b")) ++
   (List.replicate 25 (rowCA "c") ++ List.replicate 25 (rowCN "c"))⟩

/-- The breakdown record of the 0.5-rate groups of exT4s. -/
def bHalf : BRec := ⟨50, 25, some (1 / 2), 500, some 10⟩

/-- The breakdown record of the 0.2-rate group of exT4s. -/
def bFifth : BRec := ⟨50, 10, some (1 / 5), 500, some 10⟩

/-- An abandoned order of cart value 10 in the given customer state. -/
def rowST (st0 : String) : Row := ⟨some 1, some 0, some 10, none, none, some st0⟩

/-- A 200-row table with two 100-row states of equal abandonment rate. -/
def exT4st : Table :=
  ⟨allCols, List.replicate 100 (rowST "RJ") ++ List.replicate 100 (rowST "SP")⟩

/-- The aggregated record of each 100-row state group of exT4st. -/
def b100 : BRec := ⟨100, 100, some 1, 1000, some 10⟩

/-- Witness for the amended C4 on the 0.2 / 0.5 / 0.5 example of the
specification: the category output places the two 0.5-rate groups first,
in their original relative order b before c, then the 0.2 group; the
output is pairwise descending; the tie b, c is kept in order by the
sort, the table having 3 non-NaN groups, within the at-most-16 bound;
two equal-rate state groups likewise come out sorted and in their
original order; and the payment breakdown is returned in key order. -/
theorem C4_breakdown_ordering_witness :
    get_category_analysis (some exT4s) =
      .ok [("b", bHalf), ("c", bHalf), ("a", bFifth)] ∧
    ([("b", bHalf), ("c", bHalf), ("a", bFifth)]).Pairwise rateGE ∧
    List.Sublist [("b", bHalf), ("c", bHalf)]
      (sortDescByRate (categoryFiltered exT4s.rows)) ∧
    get_state_analysis (some exT4st) = .ok [("RJ", b100), ("SP", b100)] ∧
    ([("RJ", b100), ("SP", b100)]).Pairwise rateGE ∧
    List.Sublist [("RJ", b100), ("SP", b100)]
      (sortDescByRate (stateFiltered exT4st.rows)) ∧
    ([] : List (String × BRec)).Pairwise (fun a b => a.1 ≤ b.1) := by
  refine ⟨?_, ?_, ?_, ?_, ?_, ?_, ?_⟩
  · set_option maxRecDepth 16000 in with_unfolding_all rfl
  · exact (C4_breakdown_ordering exT4s).1 _
      (by set_option maxRecDepth 16000 in with_unfolding_all rfl)
  · exact (C4_breakdown_ordering exT4s).2.2.1 ("b", bHalf) ("c", bHalf)
      (by set_option maxRecDepth 16000 in with_unfolding_all decide)
      (by set_option maxRecDepth 16000 in with_unfolding_all decide) rfl
  · set_option maxRecDepth 32000 in with_unfolding_all rfl
  · exact (C4_breakdown_ordering exT4st).2.1 _
      (by set_option maxRecDepth 32000 in with_unfolding_all rfl)
  · exact (C4_breakdown_ordering exT4st).2.2.2.1 ("RJ", b100) ("SP", b100)
      (by set_option maxRecDepth 32000 in with_unfolding_all decide)
      (by set_option maxRecDepth 32000 in with_unfolding_all decide) rfl
  · exact (C4_breakdown_ordering exT4s).2.2.2.2 []
      (by set_option maxRecDepth 16000 in with_unfolding_all rfl)

/-- C6: the filter stage drops exactly the groups whose total_orders
lies strictly below the minimum group size — 50 for the category
breakdown, 100 for the geographic one — while the payment breakdown
applies no minimum and returns every group. -/
theorem C6_min_group_size (t : Table) (p : String × BRec) :
    (p ∈ categoryFiltered t.rows ↔
      p ∈ categoryGroups t.rows ∧ (50 : ℚ) ≤ p.2.total_orders) ∧
    (p ∈ stateFiltered t.rows ↔
      p ∈ stateGroups t.rows ∧ (100 : ℚ) ≤ p.2.total_orders) ∧
    (∀ l, get_payment_analysis (some t) = .ok l →
      l = groupAgg Row.payment_type t.rows) := by
  refine ⟨?_, ?_, payment_ok_elim t⟩
  · rw [categoryFiltered, List.mem_filter]
    simp only [decide_eq_true_eq]
  · rw [stateFiltered, List.mem_filter]
    simp only [decide_eq_true_eq]

/-- A table with a 49-row category a and a 50-row category b, every row
an abandoned order of cart value 10. -/
def exT6 : Table :=
  ⟨allCols,
   List.replicate 49 (rowCA "a") ++ List.replicate 50 (rowCA "b")⟩

/-- The aggregated record of the 49-row group of exT6. -/
def b49 : BRec := ⟨49, 49, some 1, 490, some 10⟩

/-- The aggregated record of the 50-row group of exT6. -/
def b50 : BRec := ⟨50, 50, some 1, 500, some 10⟩

/-- Witness for C6 at exT6: the 49-row group a is produced by the
groupby but dropped by the filter, the 50-row group b passes it, and the
final category output holds exactly group b. -/
theorem C6_min_group_size_witness :
    ("a", b49) ∈ categoryGroups exT6.rows ∧
    ("a", b49) ∉ categoryFiltered exT6.rows ∧
    ("b", b50) ∈ categoryFiltered exT6.rows ∧
    get_category_analysis (some exT6) = .ok [("b", b50)] ∧
    ([] : List (String × BRec)) = groupAgg Row.payment_type exT6.rows := by
  refine ⟨?_, ?_, ?_, ?_, ?_⟩
  · set_option maxRecDepth 16000 in with_unfolding_all decide
  · intro hmem
    have h50 := ((C6_min_group_size exT6 ("a", b49)).1.mp hmem).2
    have : ¬ ((50 : ℚ) ≤ b49.total_orders) := by norm_num [b49]
    exact this h50
  · exact (C6_min_group_size exT6 ("b", b50)).1.mpr
      ⟨by set_option maxRecDepth 16000 in with_unfolding_all decide,
       by norm_num [b50]⟩
  · set_option maxRecDepth 16000 in with_unfolding_all rfl
  · exact (C6_min_group_size exT6 ("b", b50)).2.2 []
      (by set_option maxRecDepth 16000 in with_unfolding_all rfl)

end CartAbandon
